import Mathlib

/-!
Shallow embedding of `src/app.py` (the "AI Remake" refinement loop): the
session state held in `st.session_state`, the three model-call wrappers
(`analyze_image`, `refine_prompt`, `generate_image_from_prompt`) and the two
button handlers (Remake, Refine).  External model responses are passed in as
oracle parameters; each handler returns the new session state, the status it
reported, and the trace of outbound calls it made.
-/

namespace AIRemake

mutual
/-- Python JSON values as returned by `json.loads` (Python `None` is `null`). -/
inductive Json where
  | null
  | bool (b : Bool)
  | num (n : Int)
  | str (s : String)
  | arr (xs : JsonList)
  | obj (fs : JsonFields)
deriving Repr, DecidableEq

/-- A sequence of JSON values (a JSON array's elements). -/
inductive JsonList where
  | nil
  | cons (hd : Json) (tl : JsonList)
deriving Repr, DecidableEq

/-- The key/value fields of a JSON object. -/
inductive JsonFields where
  | nil
  | cons (key : String) (val : Json) (tl : JsonFields)
deriving Repr, DecidableEq
end

instance : Inhabited Json := ⟨Json.null⟩

/-- Emptiness of a JSON array's element list. -/
def JsonList.isEmpty : JsonList → Bool
  | .nil => true
  | .cons _ _ => false

/-- Emptiness of a JSON object's field list. -/
def JsonFields.isEmpty : JsonFields → Bool
  | .nil => true
  | .cons _ _ _ => false

/-- Python truthiness of a JSON value (`if x:`). -/
def Json.truthy : Json → Bool
  | .null => false
  | .bool b => b
  | .num n => n != 0
  | .str s => s != ""
  | .arr xs => !xs.isEmpty
  | .obj fs => !fs.isEmpty

/-- `dict` lookup on the field list of a JSON object (first matching key). -/
def lookupField : JsonFields → String → Option Json
  | .nil, _ => none
  | .cons k v fs, key => if k = key then some v else lookupField fs key

/-- A raw image (`PIL.Image`); only its identity matters to the loop. -/
structure Image where
  data : List Nat
deriving Repr, DecidableEq

/-- One `part` of a Gemini generation response; `inline_data` carries the
image bytes when present (`None` otherwise). -/
structure Part where
  inline_data : Option (List Nat)
deriving Repr, DecidableEq

/-- `candidate.content` of a generation response. -/
structure Content where
  parts : List Part
deriving Repr, DecidableEq

/-- One `candidate` of a generation response. -/
structure Candidate where
  content : Content
deriving Repr, DecidableEq

/-- A Gemini image-generation response (`response.candidates`). -/
structure GenResponse where
  candidates : List Candidate
deriving Repr, DecidableEq

/-- One entry of `st.session_state.refined_images`: the tuple
`(image, prompt, changes)` appended by the Refine handler.  `prompt` and
`changes` are whatever Python objects `.get` produced (hence `Json`). -/
structure Attempt where
  image : Image
  prompt : Json
  changes : Json
deriving Repr, DecidableEq

/-- The session state of app.py: `generated_image`, `current_prompt`
(initially Python `None`, i.e. `Json.null`), `refined_images`. -/
structure SessionState where
  generated_image : Option Image
  current_prompt : Json
  refined_images : List Attempt
deriving Repr, DecidableEq

/-- Session-state initialization (app.py lines 123-128). -/
def initialState : SessionState :=
  { generated_image := none, current_prompt := Json.null, refined_images := [] }

/-- Status surfaced to the user by a handler run; `crashed` models an uncaught
exception (e.g. `.get` on a truthy non-dict comparison result). -/
inductive Status where
  | apiKeyError
  | analysisFailed
  | generationFailed
  | remakeComplete
  | refinementFailed
  | refinementComplete
  | crashed
deriving Repr, DecidableEq

/-- One outbound call made by a handler, with the exact arguments the code
passes (client construction, the analysis request, the comparison request of
`refine_prompt`, the generation request of `generate_image_from_prompt`). -/
inductive Call where
  | constructClient (api_key : String)
  | analyzeCall (image : Image) (example_structure : String)
  | compareCall (source : Image) (generated : Option Image) (prompt : Json)
  | generateCall (prompt : Json) (input_image : Option Image)
deriving Repr, DecidableEq

/-- `analyze_image` (app.py lines 22-40): one `generate_content` call whose
text is fed to `json.loads`; any exception in either is caught and yields
`None`.  `callResult` is the transport outcome, `loads` the parse outcome. -/
def analyze_image (callResult : Except String String)
    (loads : String → Except String Json) : Option Json :=
  match callResult with
  | .error _ => none
  | .ok text => (loads text).toOption

/-- `refine_prompt` (app.py lines 42-78): same try/except shape as
`analyze_image` — transport then `json.loads`, exceptions yield `None`. -/
def refine_prompt (callResult : Except String String)
    (loads : String → Except String Json) : Option Json :=
  match callResult with
  | .error _ => none
  | .ok text => (loads text).toOption

/-- Scan of `response.candidates[0].content.parts` for the first part whose
`inline_data` is truthy; its bytes are opened as the returned image. -/
def findInlineData : List Part → Option Image
  | [] => none
  | p :: ps =>
    match p.inline_data with
    | some bytes => some ⟨bytes⟩
    | none => findInlineData ps

/-- `generate_image_from_prompt` (app.py lines 80-101): on exception `None`;
otherwise, if `candidates` and `candidates[0].content.parts` are both
non-empty, return the first part's inline image, else `None`. -/
def generate_image_from_prompt (resp : Except String GenResponse) : Option Image :=
  match resp with
  | .error _ => none
  | .ok r =>
    match r.candidates with
    | [] => none
    | c :: _ =>
      if c.content.parts.isEmpty then none
      else findInlineData c.content.parts

/-- External outcomes a Remake run consumes: the analysis transport + parse,
the generation response keyed by the prompt sent, and the optional
`prompt_example.txt` content (`none` = `FileNotFoundError`). -/
structure RemakeOracle where
  analyzeResp : Except String String
  loadsA : String → Except String Json
  genResp : Json → Except String GenResponse
  fileExample : Option String

/-- External outcomes a Refine run consumes: the comparison transport + parse
and the generation response keyed by the prompt sent. -/
structure RefineOracle where
  compareResp : Except String String
  loadsC : String → Except String Json
  genResp : Json → Except String GenResponse

/-- Result of one handler run: the session state afterwards, the status
reported, and the ordered trace of outbound calls. -/
structure RunResult where
  state : SessionState
  status : Status
  calls : List Call
deriving Repr, DecidableEq

/-- Fallback instruction used when `prompt_example.txt` is missing
(app.py line 154). -/
def fallbackStructure : String := "Provide a detailed JSON description of the image."

/-- The Remake button handler (app.py lines 143-176): guard on the API key,
build the client, read the example structure, analyze, store the prompt,
generate, and on success store the image and reset `refined_images`. -/
def remakeHandler (api_key : String) (image : Image) (s : SessionState)
    (o : RemakeOracle) : RunResult :=
  if api_key = "" then
    { state := s, status := .apiKeyError, calls := [] }
  else
    let example_structure := o.fileExample.getD fallbackStructure
    let c0 : List Call := [.constructClient api_key, .analyzeCall image example_structure]
    match analyze_image o.analyzeResp o.loadsA with
    | none => { state := s, status := .analysisFailed, calls := c0 }
    | some prompt_json =>
      if prompt_json.truthy then
        let s1 := { s with current_prompt := prompt_json }
        let calls := c0 ++ [.generateCall prompt_json none]
        match generate_image_from_prompt (o.genResp prompt_json) with
        | some g =>
          { state := { s1 with generated_image := some g, refined_images := [] }
            status := .remakeComplete, calls := calls }
        | none => { state := s1, status := .generationFailed, calls := calls }
      else { state := s, status := .analysisFailed, calls := c0 }

/-- The Refine button handler (app.py lines 203-231): guard on the API key,
pick the comparison baseline (last refined attempt if any, else the initial
generated image and `current_prompt`), run `refine_prompt`, read
`new_prompt`/`changes` off the result, regenerate text-to-image, and on
success append `(image, new_prompt, changes)` to `refined_images`.  A truthy
non-dict comparison result makes `.get` raise (uncaught): `crashed`. -/
def refineHandler (api_key : String) (image : Image) (s : SessionState)
    (o : RefineOracle) : RunResult :=
  if api_key = "" then
    { state := s, status := .apiKeyError, calls := [] }
  else
    let current_gen_img : Option Image :=
      match s.refined_images.getLast? with
      | some a => some a.image
      | none => s.generated_image
    let current_prompt : Json :=
      match s.refined_images.getLast? with
      | some a => a.prompt
      | none => s.current_prompt
    let c0 : List Call := [.constructClient api_key, .compareCall image current_gen_img current_prompt]
    match refine_prompt o.compareResp o.loadsC with
    | none => { state := s, status := .refinementFailed, calls := c0 }
    | some result =>
      if result.truthy then
        match result with
        | .obj fs =>
          let new_prompt := (lookupField fs "new_prompt").getD Json.null
          let changes := (lookupField fs "changes").getD (Json.arr .nil)
          let calls := c0 ++ [.generateCall new_prompt none]
          match generate_image_from_prompt (o.genResp new_prompt) with
          | some img =>
            { state := { s with refined_images := s.refined_images ++ [⟨img, new_prompt, changes⟩] }
              status := .refinementComplete, calls := calls }
          | none => { state := s, status := .generationFailed, calls := calls }
        | _ => { state := s, status := .crashed, calls := c0 }
      else { state := s, status := .refinementFailed, calls := c0 }

/-- The spec's Attempt-history view of the session state (spec §3): attempt
#0 is the initial generated image paired with `current_prompt` and an empty
change list, followed by the refined attempts; empty while no generated
image exists. -/
def specHistory (s : SessionState) : List Attempt :=
  match s.generated_image with
  | none => []
  | some g => ⟨g, s.current_prompt, Json.arr .nil⟩ :: s.refined_images

/-- Does a call pass no input image when it is a generation call?
(Non-generation calls are vacuously fine.) -/
def Call.generateHasNoInputImage : Call → Bool
  | .generateCall _ i => i.isNone
  | _ => true

/-! ### Concrete fixtures used by witnesses and counterexamples -/

/-- A concrete source image. -/
def img0 : Image := ⟨[0]⟩

/-- A concrete initially-generated image. -/
def imgGen : Image := ⟨[1]⟩

/-- A first refined attempt. -/
def att1 : Attempt := ⟨⟨[10]⟩, Json.str "p1", Json.arr .nil⟩

/-- A second refined attempt. -/
def att2 : Attempt := ⟨⟨[11]⟩, Json.str "p2", Json.arr .nil⟩

/-- A session state right after a successful remake (empty refinement history). -/
def sReady : SessionState := ⟨some imgGen, Json.str "d0", []⟩

/-- A session state with two refined attempts in history. -/
def sTwo : SessionState := ⟨some imgGen, Json.str "d0", [att1, att2]⟩

/-- A generation response with one candidate holding one inline-data part. -/
def okGenResponse : GenResponse := ⟨[⟨⟨[⟨some [7, 7]⟩]⟩⟩]⟩

/-- A refine oracle whose comparison transport fails. -/
def oRefineFail : RefineOracle :=
  { compareResp := .error "net", loadsC := fun _ => .ok Json.null,
    genResp := fun _ => .error "net" }

/-- A remake oracle: analysis parses to a fresh description, generation
returns a response with no candidates (hence no image). -/
def oRemakeGenFail : RemakeOracle :=
  { analyzeResp := .ok "t", loadsA := fun _ => .ok (Json.str "new"),
    genResp := fun _ => .ok ⟨[]⟩, fileExample := none }

/-- A remake oracle whose analysis transport fails. -/
def oRemakeAnalyzeFail : RemakeOracle :=
  { analyzeResp := .error "net", loadsA := fun _ => .ok Json.null,
    genResp := fun _ => .ok okGenResponse, fileExample := none }

/-- A remake oracle where both analysis and generation succeed. -/
def oRemakeOk : RemakeOracle :=
  { analyzeResp := .ok "t", loadsA := fun _ => .ok (Json.str "new"),
    genResp := fun _ => .ok okGenResponse, fileExample := none }

/-- A refine oracle whose comparison yields a truthy object missing
`new_prompt` (only a non-empty `changes` list), and whose generation
succeeds. -/
def oRefineNoNewPrompt : RefineOracle :=
  { compareResp := .ok "t",
    loadsC := fun _ =>
      .ok (Json.obj (.cons "changes" (Json.arr (.cons (Json.str "fixed") .nil)) .nil)),
    genResp := fun _ => .ok okGenResponse }

/-- A refine oracle whose comparison yields `new_prompt` and `changes`, and
whose generation succeeds. -/
def oRefineOk : RefineOracle :=
  { compareResp := .ok "t",
    loadsC := fun _ =>
      .ok (Json.obj (.cons "new_prompt" (Json.str "p3")
            (.cons "changes" (Json.arr (.cons (Json.str "fixed angle") .nil)) .nil))),
    genResp := fun _ => .ok okGenResponse }

/-- A refine oracle whose comparison succeeds but whose generation response
carries a candidate with a part without inline data. -/
def oRefineGenNoData : RefineOracle :=
  { compareResp := .ok "t",
    loadsC := fun _ =>
      .ok (Json.obj (.cons "new_prompt" (Json.str "p3") .nil)),
    genResp := fun _ => .ok ⟨[⟨⟨[⟨none⟩]⟩⟩]⟩ }

/-! ### Theorems -/

/-- C9: with an empty API key, both the Remake and the Refine handler stop at
the key guard with the user-facing key error: no client is constructed, no
outbound call is made, and the session state (generated image, current
description, refinement history) is unchanged. -/
theorem emptyKey_blocks_before_any_call (image : Image) (s : SessionState)
    (o : RemakeOracle) (o' : RefineOracle) :
    remakeHandler "" image s o = ⟨s, .apiKeyError, []⟩ ∧
    refineHandler "" image s o' = ⟨s, .apiKeyError, []⟩ := by
  constructor <;> rfl

/-- C7: every generation call traced during a Refine run passes no input
image: refinement regenerates text-to-image from the revised description
only, never seeding with the previous generated image. -/
theorem refine_generation_is_text_to_image (k : String) (image : Image)
    (s : SessionState) (o : RefineOracle) :
    (refineHandler k image s o).calls.all Call.generateHasNoInputImage = true := by
  unfold refineHandler
  split
  · rfl
  · cases refine_prompt o.compareResp o.loadsC with
    | none => rfl
    | some result =>
      by_cases ht : result.truthy
      · cases result <;> simp_all [Call.generateHasNoInputImage]
        split <;> simp [Call.generateHasNoInputImage]
      · simp [ht, Call.generateHasNoInputImage]

/-- C10: during a remake in which analysis succeeds (with a truthy parsed
description) but generation fails, `current_prompt` has already been
overwritten with the new analysis result while `generated_image` and
`refined_images` keep their pre-remake values — so the stored description and
the stored generated image no longer correspond. -/
theorem remake_genFailure_leaves_stale_image (k : String) (image : Image)
    (s : SessionState) (o : RemakeOracle) (p : Json)
    (hk : k ≠ "")
    (ha : analyze_image o.analyzeResp o.loadsA = some p)
    (ht : p.truthy = true)
    (hg : generate_image_from_prompt (o.genResp p) = none) :
    (remakeHandler k image s o).state.current_prompt = p ∧
    (remakeHandler k image s o).state.generated_image = s.generated_image ∧
    (remakeHandler k image s o).state.refined_images = s.refined_images ∧
    (remakeHandler k image s o).status = .generationFailed := by
  unfold remakeHandler
  rw [if_neg hk, ha]
  simp [ht, hg]

/-- Witness for C10 at concrete inputs. -/
theorem remake_genFailure_leaves_stale_image_witness :
    (remakeHandler "k" img0 sReady oRemakeGenFail).state.current_prompt = Json.str "new" ∧
    (remakeHandler "k" img0 sReady oRemakeGenFail).state.generated_image = sReady.generated_image ∧
    (remakeHandler "k" img0 sReady oRemakeGenFail).state.refined_images = sReady.refined_images ∧
    (remakeHandler "k" img0 sReady oRemakeGenFail).status = .generationFailed :=
  remake_genFailure_leaves_stale_image "k" img0 sReady oRemakeGenFail (Json.str "new")
    (by decide) (by decide) (by decide) (by decide)

/-- C1: a Refine run invokes the comparison (`refine_prompt`) with the image
and description of the most recent refined attempt when the refinement
history is non-empty, and with the initial generated image and its
description when the history is empty — never an earlier attempt. -/
theorem refine_compares_against_last_attempt (k : String) (image : Image)
    (s : SessionState) (o : RefineOracle) (hk : k ≠ "") :
    (∀ a, s.refined_images.getLast? = some a →
      (refineHandler k image s o).calls[1]? =
        some (.compareCall image (some a.image) a.prompt)) ∧
    (s.refined_images = [] →
      (refineHandler k image s o).calls[1]? =
        some (.compareCall image s.generated_image s.current_prompt)) := by
  unfold refineHandler
  rw [if_neg hk]
  constructor
  · intro a hlast
    rw [hlast]
    cases refine_prompt o.compareResp o.loadsC with
    | none => rfl
    | some result =>
      by_cases ht : result.truthy
      · cases result <;> simp_all
        split <;> rfl
      · simp [ht]
  · intro hnil
    rw [hnil]
    cases refine_prompt o.compareResp o.loadsC with
    | none => rfl
    | some result =>
      by_cases ht : result.truthy
      · cases result <;> simp_all
        split <;> rfl
      · simp [ht]

/-- Witness for C1 at concrete inputs: with history `[att1, att2]` the
comparison uses `att2`'s image and prompt. -/
theorem refine_compares_against_last_attempt_witness :
    (refineHandler "k" img0 sTwo oRefineFail).calls[1]? =
      some (.compareCall img0 (some att2.image) att2.prompt) :=
  (refine_compares_against_last_attempt "k" img0 sTwo oRefineFail (by decide)).1
    att2 (by decide)

/-- C5: a successful remake (analysis parses to a truthy description and
generation returns an image) leaves the spec's Attempt history with exactly
one element — the fresh image paired with the fresh description and an empty
change list — regardless of the prior state. -/
theorem remake_success_history_singleton (k : String) (image : Image)
    (s : SessionState) (o : RemakeOracle) (p : Json) (g : Image)
    (hk : k ≠ "")
    (ha : analyze_image o.analyzeResp o.loadsA = some p)
    (ht : p.truthy = true)
    (hg : generate_image_from_prompt (o.genResp p) = some g) :
    specHistory (remakeHandler k image s o).state = [⟨g, p, Json.arr .nil⟩] ∧
    (remakeHandler k image s o).status = .remakeComplete := by
  unfold remakeHandler
  rw [if_neg hk, ha]
  simp [ht, hg, specHistory]

/-- Witness for C5 at concrete inputs. -/
theorem remake_success_history_singleton_witness :
    specHistory (remakeHandler "k" img0 sTwo oRemakeOk).state =
      [⟨⟨[7, 7]⟩, Json.str "new", Json.arr .nil⟩] ∧
    (remakeHandler "k" img0 sTwo oRemakeOk).status = .remakeComplete :=
  remake_success_history_singleton "k" img0 sTwo oRemakeOk (Json.str "new") ⟨[7, 7]⟩
    (by decide) (by decide) (by decide) (by decide)

/-- C6: a successful refinement (comparison returns a truthy object carrying
`new_prompt` and `changes`, and generation returns an image) appends exactly
one attempt, carrying that new description and exactly that change list; the
spec's Attempt history grows by exactly one element. -/
theorem refine_success_appends_compare_output (k : String) (image : Image)
    (s : SessionState) (o : RefineOracle) (fs : JsonFields) (p c : Json)
    (g g0 : Image)
    (hk : k ≠ "")
    (hgen : s.generated_image = some g0)
    (hres : refine_prompt o.compareResp o.loadsC = some (Json.obj fs))
    (ht : (Json.obj fs).truthy = true)
    (hp : lookupField fs "new_prompt" = some p)
    (hc : lookupField fs "changes" = some c)
    (hg : generate_image_from_prompt (o.genResp p) = some g) :
    (refineHandler k image s o).state.refined_images = s.refined_images ++ [⟨g, p, c⟩] ∧
    specHistory (refineHandler k image s o).state = specHistory s ++ [⟨g, p, c⟩] ∧
    (specHistory (refineHandler k image s o).state).length = (specHistory s).length + 1 ∧
    (refineHandler k image s o).status = .refinementComplete := by
  unfold refineHandler
  rw [if_neg hk, hres]
  simp [ht, hp, hc, hg, specHistory, hgen]

/-- Witness for C6 at concrete inputs: compare returns
`{"new_prompt": "p3", "changes": ["fixed angle"]}` and generation succeeds. -/
theorem refine_success_appends_compare_output_witness :
    (refineHandler "k" img0 sReady oRefineOk).state.refined_images =
      sReady.refined_images ++
        [⟨⟨[7, 7]⟩, Json.str "p3", Json.arr (.cons (Json.str "fixed angle") .nil)⟩] ∧
    specHistory (refineHandler "k" img0 sReady oRefineOk).state =
      specHistory sReady ++
        [⟨⟨[7, 7]⟩, Json.str "p3", Json.arr (.cons (Json.str "fixed angle") .nil)⟩] ∧
    (specHistory (refineHandler "k" img0 sReady oRefineOk).state).length =
      (specHistory sReady).length + 1 ∧
    (refineHandler "k" img0 sReady oRefineOk).status = .refinementComplete :=
  refine_success_appends_compare_output "k" img0 sReady oRefineOk
    (.cons "new_prompt" (Json.str "p3")
      (.cons "changes" (Json.arr (.cons (Json.str "fixed angle") .nil)) .nil))
    (Json.str "p3") (Json.arr (.cons (Json.str "fixed angle") .nil)) ⟨[7, 7]⟩ imgGen
    (by decide) (by decide) (by decide) (by decide) (by decide) (by decide) (by decide)

/-- Case analysis of a Remake run: either it stops at the key guard or at
analysis with the state untouched, or analysis succeeded and generation
failed (only `current_prompt` overwritten), or it succeeded (fresh image,
fresh prompt, empty refinement history). -/
lemma remake_outcomes (k : String) (image : Image) (s : SessionState)
    (o : RemakeOracle) :
    ((remakeHandler k image s o).state = s ∧
      ((remakeHandler k image s o).status = .apiKeyError ∨
       (remakeHandler k image s o).status = .analysisFailed)) ∨
    (∃ p, Json.truthy p = true ∧
      (remakeHandler k image s o).state = { s with current_prompt := p } ∧
      (remakeHandler k image s o).status = .generationFailed) ∨
    (∃ p g, (remakeHandler k image s o).state = ⟨some g, p, []⟩ ∧
      (remakeHandler k image s o).status = .remakeComplete) := by
  unfold remakeHandler
  by_cases hk : k = ""
  · simp [hk]
  · rw [if_neg hk]
    cases ha : analyze_image o.analyzeResp o.loadsA with
    | none => simp
    | some p =>
      by_cases ht : p.truthy
      · simp only [ht, if_true]
        cases hg : generate_image_from_prompt (o.genResp p) with
        | none => exact Or.inr (Or.inl ⟨p, ht, rfl, rfl⟩)
        | some g => exact Or.inr (Or.inr ⟨p, g, rfl, rfl⟩)
      · simp [ht]

/-- Case analysis of a Refine run: either the state is untouched and the
status is not success, or exactly one attempt was appended with success
status. -/
lemma refine_outcomes (k : String) (image : Image) (s : SessionState)
    (o : RefineOracle) :
    ((refineHandler k image s o).state = s ∧
      (refineHandler k image s o).status ≠ .refinementComplete) ∨
    (∃ a, (refineHandler k image s o).state =
        { s with refined_images := s.refined_images ++ [a] } ∧
      (refineHandler k image s o).status = .refinementComplete) := by
  unfold refineHandler
  by_cases hk : k = ""
  · simp [hk]
  · rw [if_neg hk]
    cases hres : refine_prompt o.compareResp o.loadsC with
    | none => simp
    | some result =>
      by_cases ht : result.truthy
      · simp only [ht, if_true]
        cases result with
        | obj fs =>
          cases hg : generate_image_from_prompt
              (o.genResp ((lookupField fs "new_prompt").getD Json.null)) with
          | none => left; constructor <;> simp [hg]
          | some img =>
            right
            exact ⟨⟨img, (lookupField fs "new_prompt").getD Json.null,
              (lookupField fs "changes").getD (Json.arr .nil)⟩, by simp [hg], by simp [hg]⟩
        | null => simp
        | bool b => simp
        | num n => simp
        | str t => simp
        | arr xs => simp
      · simp [ht]

/-- C2 (amended): on a key-guard or analysis failure of Remake the whole
state is unchanged; on any non-successful Remake the generated image and the
refinement history are unchanged (the current description may have been
overwritten when analysis succeeded and generation failed); on any
non-successful Refine the whole state is unchanged. -/
theorem failure_leaves_attempt_history_unchanged (k : String) (image : Image)
    (s : SessionState) (o : RemakeOracle) (o' : RefineOracle) :
    ((remakeHandler k image s o).status = .apiKeyError ∨
     (remakeHandler k image s o).status = .analysisFailed →
       (remakeHandler k image s o).state = s) ∧
    ((remakeHandler k image s o).status ≠ .remakeComplete →
       (remakeHandler k image s o).state.generated_image = s.generated_image ∧
       (remakeHandler k image s o).state.refined_images = s.refined_images) ∧
    ((refineHandler k image s o').status ≠ .refinementComplete →
       (refineHandler k image s o').state = s) := by
  refine ⟨?_, ?_, ?_⟩
  · intro hst
    obtain ⟨he, _⟩ | ⟨p, _, he, hs⟩ | ⟨p, g, he, hs⟩ := remake_outcomes k image s o
    · exact he
    · rw [hs] at hst; rcases hst with h | h <;> cases h
    · rw [hs] at hst; rcases hst with h | h <;> cases h
  · intro hst
    obtain ⟨he, _⟩ | ⟨p, _, he, _⟩ | ⟨p, g, he, hs⟩ := remake_outcomes k image s o
    · rw [he]; exact ⟨rfl, rfl⟩
    · rw [he]; exact ⟨rfl, rfl⟩
    · exact absurd hs hst
  · intro hst
    obtain ⟨he, _⟩ | ⟨a, he, hs⟩ := refine_outcomes k image s o'
    · exact he
    · exact absurd hs hst

/-- Counterexample to C2 as stated: with analysis succeeding and generation
failing (returning `none`), the stored description `current_prompt` — the
description of the still-displayed initial generated image — has changed,
so the Attempt history including "its description" is not unchanged. -/
theorem failure_frame_counterexample :
    generate_image_from_prompt (oRemakeGenFail.genResp (Json.str "new")) = none ∧
    (remakeHandler "k" img0 sReady oRemakeGenFail).status = .generationFailed ∧
    (remakeHandler "k" img0 sReady oRemakeGenFail).state.current_prompt ≠
      sReady.current_prompt := by
  decide

/-- Witness for C2 (amended) at concrete inputs: a failed Refine leaves the
state unchanged. -/
theorem failure_leaves_attempt_history_unchanged_witness :
    (refineHandler "k" img0 sTwo oRefineFail).state = sTwo :=
  (failure_leaves_attempt_history_unchanged "k" img0 sTwo oRemakeAnalyzeFail
    oRefineFail).2.2 (by decide)

/-- Counterexample to C4 as stated: a fresh remake is triggered (key
present) but analysis fails, and `refined_images` is *not* reset — it keeps
its two prior attempts. -/
theorem remake_reset_counterexample :
    (remakeHandler "k" img0 sTwo oRemakeAnalyzeFail).status = .analysisFailed ∧
    (remakeHandler "k" img0 sTwo oRemakeAnalyzeFail).state.refined_images ≠ [] := by
  decide

/-- C4 (amended): the refinement history `refined_images` resets to empty
exactly when the remake pipeline succeeds (analysis and generation both
succeed); on any non-successful remake it is unchanged. -/
theorem remake_resets_history_exactly_on_success (k : String) (image : Image)
    (s : SessionState) (o : RemakeOracle) :
    ((remakeHandler k image s o).status = .remakeComplete →
      (remakeHandler k image s o).state.refined_images = []) ∧
    ((remakeHandler k image s o).status ≠ .remakeComplete →
      (remakeHandler k image s o).state.refined_images = s.refined_images) := by
  obtain ⟨he, hs⟩ | ⟨p, _, he, hs⟩ | ⟨p, g, he, hs⟩ := remake_outcomes k image s o
  · constructor
    · intro h; rcases hs with hs | hs <;> rw [hs] at h <;> cases h
    · intro _; rw [he]
  · constructor
    · intro h; rw [hs] at h; cases h
    · intro _; rw [he]
  · constructor
    · intro _; rw [he]
    · intro h; exact absurd hs h

/-- Witness for C4 (amended) at concrete inputs: a successful remake over a
two-attempt history leaves `refined_images` empty. -/
theorem remake_resets_history_exactly_on_success_witness :
    (remakeHandler "k" img0 sTwo oRemakeOk).state.refined_images = [] :=
  (remake_resets_history_exactly_on_success "k" img0 sTwo oRemakeOk).1 (by decide)

/-- Counterexample to C3 as stated: the comparison returns a truthy object
with no `new_prompt` field; the step nevertheless completes — a generation
*is* performed from the missing (null) description and an attempt *is*
appended. -/
theorem refine_missingNewPrompt_counterexample :
    (refineHandler "k" img0 sReady oRefineNoNewPrompt).status = .refinementComplete ∧
    (refineHandler "k" img0 sReady oRefineNoNewPrompt).state.refined_images.length =
      sReady.refined_images.length + 1 ∧
    Call.generateCall Json.null none ∈
      (refineHandler "k" img0 sReady oRefineNoNewPrompt).calls := by
  decide

/-- C3 (amended): when the comparison succeeds with a truthy JSON object
missing `new_prompt`, the refinement step is *not* failed: generation is
invoked with the null description, and if it returns an image, an attempt
with null description (and the returned-or-defaulted change list) is
appended; an empty change list is likewise tolerated via the `[]` default. -/
theorem refine_missingNewPrompt_generates_from_null (k : String)
    (image : Image) (s : SessionState) (o : RefineOracle) (fs : JsonFields)
    (hk : k ≠ "")
    (hres : refine_prompt o.compareResp o.loadsC = some (Json.obj fs))
    (ht : (Json.obj fs).truthy = true)
    (hp : lookupField fs "new_prompt" = none) :
    Call.generateCall Json.null none ∈ (refineHandler k image s o).calls ∧
    (∀ g, generate_image_from_prompt (o.genResp Json.null) = some g →
      (refineHandler k image s o).state.refined_images =
        s.refined_images ++
          [⟨g, Json.null, (lookupField fs "changes").getD (Json.arr .nil)⟩] ∧
      (refineHandler k image s o).status = .refinementComplete) := by
  unfold refineHandler
  rw [if_neg hk, hres]
  simp only [ht, if_true, hp, Option.getD_none]
  cases hg : generate_image_from_prompt (o.genResp Json.null) with
  | none =>
    refine ⟨by simp, ?_⟩
    intro g hgg
    cases hgg
  | some g' =>
    refine ⟨by simp, ?_⟩
    intro g hgg
    cases hgg
    exact ⟨rfl, rfl⟩

/-- Witness for C3 (amended) at concrete inputs. -/
theorem refine_missingNewPrompt_generates_from_null_witness :
    Call.generateCall Json.null none ∈
      (refineHandler "k" img0 sReady oRefineNoNewPrompt).calls :=
  (refine_missingNewPrompt_generates_from_null "k" img0 sReady oRefineNoNewPrompt
    (.cons "changes" (Json.arr (.cons (Json.str "fixed") .nil)) .nil)
    (by decide) (by decide) (by decide) (by decide)).1

/-- Auxiliary: the part scan finds nothing when no part carries inline data. -/
lemma findInlineData_eq_none (parts : List Part)
    (h : ∀ p ∈ parts, p.inline_data = none) : findInlineData parts = none := by
  induction parts with
  | nil => rfl
  | cons p ps ih =>
    unfold findInlineData
    rw [h p (List.mem_cons_self p ps)]
    exact ih fun q hq => h q (List.mem_cons_of_mem p hq)

/-- C8: a generation response carrying no inline image data (no candidates,
no parts, or no part with inline data) makes the generator return `none` —
never a placeholder image — and a Refine run hitting it ends with
"Generation Failed" and the session state unchanged (nothing appended). -/
theorem generation_without_image_data_fails (k : String) (image : Image)
    (s : SessionState) (o : RefineOracle) (resp : GenResponse) (fs : JsonFields)
    (hk : k ≠ "")
    (hres : refine_prompt o.compareResp o.loadsC = some (Json.obj fs))
    (ht : (Json.obj fs).truthy = true)
    (hresp : o.genResp ((lookupField fs "new_prompt").getD Json.null) = Except.ok resp)
    (hnd : ∀ c ∈ resp.candidates, ∀ pt ∈ c.content.parts, pt.inline_data = none) :
    generate_image_from_prompt (Except.ok resp) = none ∧
    (refineHandler k image s o).state = s ∧
    (refineHandler k image s o).status = .generationFailed := by
  have hgen : generate_image_from_prompt (Except.ok resp) = none := by
    obtain ⟨cands⟩ := resp
    cases cands with
    | nil => rfl
    | cons c cs =>
      have hparts : ∀ pt ∈ c.content.parts, pt.inline_data = none := fun pt hpt =>
        hnd c (List.mem_cons_self c cs) pt hpt
      show (if c.content.parts.isEmpty = true then none
            else findInlineData c.content.parts) = none
      by_cases he : c.content.parts.isEmpty
      · simp [he]
      · simp [he, findInlineData_eq_none c.content.parts hparts]
  refine ⟨hgen, ?_, ?_⟩ <;>
  · unfold refineHandler
    rw [if_neg hk, hres]
    simp [ht, hresp, hgen]

/-- Witness for C8 at concrete inputs: one candidate, one part, no inline
data. -/
theorem generation_without_image_data_fails_witness :
    generate_image_from_prompt (Except.ok (⟨[⟨⟨[⟨none⟩]⟩⟩]⟩ : GenResponse)) = none ∧
    (refineHandler "k" img0 sReady oRefineGenNoData).state = sReady ∧
    (refineHandler "k" img0 sReady oRefineGenNoData).status = .generationFailed :=
  generation_without_image_data_fails "k" img0 sReady oRefineGenNoData
    ⟨[⟨⟨[⟨none⟩]⟩⟩]⟩ (.cons "new_prompt" (Json.str "p3") .nil)
    (by decide) (by decide) (by decide) rfl (by decide)

end AIRemake
